import Mathlib

/-!
# Verification of the `automaton` agent runtime

A shallow embedding, in Lean 4, of the parts of the Rust `automaton`
repository that its natural-language specification talks about:

* the survival-tier function (`src/types.rs`, `SurvivalTier::from_balance`);
* the self-modification write-path validator and diff truncation
  (`src/self_mod/code.rs`);
* one iteration of the Turn Loop (`src/agent/loop_.rs`): tier determination,
  the Dead halt, model selection, and the consecutive-error handling;
* the survival monitor (`src/survival/monitor.rs`, `SurvivalMonitor::check`);
* the turn-context builder (`src/agent/context.rs`, `build_turn_context`);
* the heartbeat due-test (`src/heartbeat/daemon.rs`, `HeartbeatDaemon::tick`).

Modelling conventions:

* Rust `f64` balances are modelled as `ℚ`.  Every constant compared against
  (`0.0`, `0.10`, `0.50`) and every balance mentioned by the specification is
  exercised far from any double-rounding boundary, and the band structure of
  `from_balance` is unchanged by the rounding of the literals, so the rational
  model is faithful on all representable inputs.
* Rust `String`/`&str` values are modelled as Lean `String` (for the path
  validator and the KV store) or as lists of UTF-8 bytes (`List Nat`, for the
  diff-truncation function, whose behaviour depends on byte indices and
  character boundaries).
* The SQLite-backed store is modelled as a record holding the KV map
  (`String → Option String`), the inbox rows, and a count of persisted turns;
  store operations are modelled as infallible (the claims concern the loop's
  own behaviour, not store I/O failure).
* `f64::from_str` is kept abstract: the loop model is parametrised by a
  `parse : String → Option ℚ` function, matching `str::parse::<f64>().ok()`.
-/

namespace Automaton

/-! ## Survival tiers (`src/types.rs`) -/

/-- `SurvivalTier` from `src/types.rs`. -/
inductive SurvivalTier where
  | Normal
  | LowCompute
  | Critical
  | Dead
deriving DecidableEq, Repr

namespace SurvivalTier

/-- `SurvivalTier::from_balance` from `src/types.rs` (lines 85–95), with the
`f64` balance modelled as a rational. -/
def from_balance (usd : ℚ) : SurvivalTier :=
  if usd ≤ 0 then .Dead
  else if usd < 1/10 then .Critical
  else if usd < 1/2 then .LowCompute
  else .Normal

theorem from_balance_dead {b : ℚ} (h : b ≤ 0) : from_balance b = .Dead := by
  unfold from_balance; rw [if_pos h]

theorem from_balance_critical {b : ℚ} (h0 : 0 < b) (h1 : b < 1/10) :
    from_balance b = .Critical := by
  unfold from_balance; rw [if_neg (by linarith), if_pos h1]

theorem from_balance_low {b : ℚ} (h0 : 1/10 ≤ b) (h1 : b < 1/2) :
    from_balance b = .LowCompute := by
  unfold from_balance; rw [if_neg (by linarith), if_neg (by linarith), if_pos h1]

theorem from_balance_normal {b : ℚ} (h : 1/2 ≤ b) : from_balance b = .Normal := by
  unfold from_balance
  rw [if_neg (by linarith), if_neg (by linarith), if_neg (by linarith)]

end SurvivalTier

/-! ## Write-path validation (`src/self_mod/code.rs`) -/

/-- `PROTECTED_FILES` from `src/self_mod/code.rs`. -/
def PROTECTED_FILES : List String :=
  ["wallet.json", "constitution.md", "automaton.toml", "state.db",
   "heartbeat.yml", "SOUL.md"]

/-- `ALLOWED_PREFIXES` from `src/self_mod/code.rs`. -/
def ALLOWED_PREFIXES : List String := ["workspace/", "skills/", "notes/"]

/-- Rust `str::replace('\\', "/")` on the character sequence. -/
def normalizeSlashes (l : List Char) : List Char :=
  l.map fun c => if c = '\\' then '/' else c

/-- Rust `str::contains(needle)`: `needle` occurs as a contiguous
subsequence. -/
def containsSeq {α : Type} [BEq α] (needle : List α) : List α → Bool
  | [] => needle.isEmpty
  | c :: rest => needle.isPrefixOf (c :: rest) || containsSeq needle rest

/-- Rust `str::rsplit('/').next()`: the characters after the last `'/'`
(the whole string when it has no `'/'`). -/
def afterLastSlash (l : List Char) : List Char :=
  (l.reverse.takeWhile (fun c => c != '/')).reverse

/-- `validate_write_path` from `src/self_mod/code.rs` (lines 27–66), as a
Boolean: `true` models `Ok(())`, `false` models the `bail!` rejections. -/
def validate_write_path (path : String) : Bool :=
  let normalized := normalizeSlashes path.data
  if containsSeq "..".data normalized then false
  else if normalized.head? == some '/' then false
  else
    let basename := afterLastSlash normalized
    if PROTECTED_FILES.any (fun q => q.data == basename) then false
    else ALLOWED_PREFIXES.any (fun q => q.data.isPrefixOf normalized)

/-- Split a character sequence into the segments between `'/'`
separators. -/
def splitSlashes : List Char → List (List Char)
  | [] => [[]]
  | c :: rest =>
    if c = '/' then [] :: splitSlashes rest
    else
      match splitSlashes rest with
      | [] => [[c]]
      | s :: ss => (c :: s) :: ss

/-- The rejection condition exactly as the specification sentence words it
(used to compare the claim against the code): reject when the normalized path
*contains a parent-directory traversal segment* (a path segment equal to
`".."`), or is absolute, or its final segment is protected, or it does not
begin with an allowlisted directory.  This is the spec-side reading; the code
itself rejects on the two-character substring `".."` anywhere. -/
def spec_rejects_write_path (path : String) : Bool :=
  let normalized := normalizeSlashes path.data
  (splitSlashes normalized).any (fun s => s == "..".data)
  || normalized.head? == some '/'
  || PROTECTED_FILES.any (fun q => q.data == afterLastSlash normalized)
  || !(ALLOWED_PREFIXES.any (fun q => q.data.isPrefixOf normalized))

/-- The rejection condition the code implements: `".."` as a substring
anywhere (not merely as a whole segment), absolute path, protected basename,
or no allowlisted path beginning. -/
def code_rejects_write_path (path : String) : Bool :=
  let normalized := normalizeSlashes path.data
  containsSeq "..".data normalized
  || normalized.head? == some '/'
  || PROTECTED_FILES.any (fun q => q.data == afterLastSlash normalized)
  || !(ALLOWED_PREFIXES.any (fun q => q.data.isPrefixOf normalized))

/-! ## Diff truncation (`src/self_mod/code.rs`), at the UTF-8 byte level -/

/-- `MAX_DIFF_BYTES` from `src/self_mod/code.rs`: `64 * 1024`. -/
def MAX_DIFF_BYTES : Nat := 64 * 1024

/-- The truncation marker appended by `truncate_diff`, as its UTF-8 bytes
(the marker is pure ASCII). -/
def truncationMarker : List Nat :=
  "\n... [diff truncated, exceeded 64KB limit]\n".data.map Char.toNat

/-- Rust `str::is_char_boundary(i)` on a UTF-8 byte sequence: `i` is `0`,
the length, or indexes a byte that is not a UTF-8 continuation byte
(`(b as i8) >= -0x40`, i.e. `b < 0x80 ∨ 0xC0 ≤ b`). -/
def isCharBoundary (s : List Nat) (i : Nat) : Bool :=
  decide (i = 0) || decide (i = s.length) ||
    (match s[i]? with
     | some b => decide (b < 128) || decide (192 ≤ b)
     | none => false)

/-- `truncate_diff` from `src/self_mod/code.rs` (lines 86–94), on UTF-8
bytes.  Rust's byte-slice `&diff[..MAX_DIFF_BYTES]` panics when the cap
does not fall on a character boundary; `none` models that panic.  Otherwise
an oversized diff becomes its first `MAX_DIFF_BYTES` bytes with the marker
appended, and any other diff is returned unchanged. -/
def truncate_diff (diff : List Nat) : Option (List Nat) :=
  if MAX_DIFF_BYTES < diff.length then
    if isCharBoundary diff MAX_DIFF_BYTES then
      some (diff.take MAX_DIFF_BYTES ++ truncationMarker)
    else none
  else some diff

/-! ## The persisted store (`src/state/database.rs`), as the claims see it -/

/-- A row of the `inbox` table (`src/types.rs`, `InboxMessage`), carrying the
fields the context builder uses; the `chrono` timestamp is carried as its
already-formatted display string. -/
structure InboxMessage where
  id : String
  from_address : String
  timestampStr : String
  content : String
  read : Bool
deriving DecidableEq, Repr

/-- The persisted store (`src/state/database.rs`): the KV table, the inbox
rows, and the number of persisted turn records.  Store operations are
modelled as infallible (the claims concern the loops' own behaviour, not
store I/O failure). -/
structure Database where
  kv : String → Option String
  inbox : List InboxMessage
  turns : Nat

/-- `Database::kv_get`. -/
def kv_get (db : Database) (k : String) : Option String := db.kv k

/-- `Database::kv_set` (upsert). -/
def kv_set (db : Database) (k v : String) : Database :=
  { db with kv := fun q => if q = k then some v else db.kv q }

/-- `Database::kv_delete`. -/
def kv_delete (db : Database) (k : String) : Database :=
  { db with kv := fun q => if q = k then none else db.kv q }

/-- `Database::unread_messages`: the inbox rows with `read = 0`. -/
def unread_messages (db : Database) : List InboxMessage :=
  db.inbox.filter fun m => !m.read

/-- `Database::mark_message_read` for every id in `ids`, applied to the
inbox rows (`UPDATE inbox SET read = 1 WHERE id = ?`). -/
def mark_ids_read (ids : List InboxMessage) (inbox : List InboxMessage) :
    List InboxMessage :=
  inbox.map fun m => if ids.any (fun u => u.id == m.id) then { m with read := true } else m

/-! ## Turn context (`src/agent/context.rs`) -/

/-- One line of the `## Unread Messages` section of the turn context. -/
def inboxLine (m : InboxMessage) : String :=
  "- From `" ++ m.from_address ++ "` at " ++ m.timestampStr ++ ": " ++ m.content ++ "\n"

/-- Stage 1 of `build_turn_context` (`src/agent/context.rs`, lines 16–35),
context part: the `## Unread Messages` section when there are unread
messages. -/
def ctxMsgs (db : Database) : String :=
  if (unread_messages db).isEmpty then ""
  else "## Unread Messages\n\n" ++ String.join ((unread_messages db).map inboxLine) ++ "\n"

/-- Stage 1 of `build_turn_context`, store part: the unread messages are
marked read. -/
def dbAfterMsgs (db : Database) : Database :=
  if (unread_messages db).isEmpty then db
  else { db with inbox := mark_ids_read (unread_messages db) db.inbox }

/-- Stage 2 of `build_turn_context` (lines 37–41), context part: the
`## Wake Reason` section when the one-shot key is pending. -/
def ctxAfterWake (db : Database) : String :=
  match kv_get (dbAfterMsgs db) "wake_reason" with
  | some reason => ctxMsgs db ++ ("## Wake Reason\n\n" ++ reason ++ "\n\n")
  | none => ctxMsgs db

/-- Stage 2 of `build_turn_context`, store part: the `wake_reason` key is
deleted after being read. -/
def dbAfterWake (db : Database) : Database :=
  match kv_get (dbAfterMsgs db) "wake_reason" with
  | some _ => kv_delete (dbAfterMsgs db) "wake_reason"
  | none => dbAfterMsgs db

/-- Stage 3 of `build_turn_context` (lines 43–47), context part: the
`## Survival Alert` section when the one-shot key is pending. -/
def ctxAfterAlert (db : Database) : String :=
  match kv_get (dbAfterWake db) "survival_alert" with
  | some alert => ctxAfterWake db ++ ("## Survival Alert\n\n" ++ alert ++ "\n\n")
  | none => ctxAfterWake db

/-- Stage 3 of `build_turn_context`, store part: the `survival_alert` key is
deleted after being read. -/
def dbAfterAlert (db : Database) : Database :=
  match kv_get (dbAfterWake db) "survival_alert" with
  | some _ => kv_delete (dbAfterWake db) "survival_alert"
  | none => dbAfterWake db

/-- `build_turn_context` from `src/agent/context.rs` (lines 13–51), with the
store threaded explicitly: returns the context string and the store after
the read-and-delete side effects (unread messages marked read, the
`wake_reason` and `survival_alert` one-shot keys deleted after inclusion). -/
def build_turn_context (db : Database) : String × Database :=
  (ctxAfterAlert db, dbAfterAlert db)

/-! ## The Turn Loop (`src/agent/loop_.rs`) -/

/-- `AgentState` from `src/types.rs`. -/
inductive AgentState where
  | Uninitialized
  | Initializing
  | Waking
  | Running
  | Sleeping
  | LowCompute
  | Critical
  | Dead
deriving DecidableEq, Repr

/-- The `Display` impl for `AgentState` (`src/types.rs`, lines 33–46). -/
def AgentState.display : AgentState → String
  | .Uninitialized => "uninitialized"
  | .Initializing => "initializing"
  | .Waking => "waking"
  | .Running => "running"
  | .Sleeping => "sleeping"
  | .LowCompute => "low_compute"
  | .Critical => "critical"
  | .Dead => "dead"

/-- The fields of `AutomatonConfig` (`src/config/schema.rs`) that the Turn
Loop claims depend on. -/
structure LoopConfig where
  inference_model : String
  low_compute_model : String
  max_consecutive_errors : Nat

/-- `AutomatonConfig::effective_model` (`src/config/schema.rs`, lines
127–133). -/
def effective_model (cfg : LoopConfig) (low_compute : Bool) : String :=
  if low_compute then cfg.low_compute_model else cfg.inference_model

/-- The Turn Loop's tier determination (`src/agent/loop_.rs`, lines 62–71):
the tier is computed from the `credits_balance` KV key alone; an absent key
yields `Normal`, and a value that does not parse falls back to balance 1.0.
`parse` abstracts `str::parse::<f64>().ok()` with balances as rationals. -/
def loopTier (parse : String → Option ℚ) (db : Database) : SurvivalTier :=
  match kv_get db "credits_balance" with
  | some balance => SurvivalTier.from_balance ((parse balance).getD 1)
  | none => SurvivalTier.Normal

/-- The observable outcome of one Turn-Loop iteration. -/
structure IterResult where
  db : Database
  errors : Nat
  halted : Bool
  turnCreated : Bool
  modelUsed : Option String

/-- One iteration of `run_agent_loop` (`src/agent/loop_.rs`, lines 62–190),
from tier determination onwards.  `infOk` abstracts the outcome of the
inference call; `now` is the current time in seconds, and the five-minute
sleep target `now + 300` is stored through `toString` (modelling the
RFC3339 rendering of `Utc::now() + Duration::minutes(5)`).  Tool execution,
conversation history and cost estimation are elided: no claim concerns
them; persisting the turn is modelled as incrementing the turn counter. -/
def loopIter (cfg : LoopConfig) (parse : String → Option ℚ) (now : Nat)
    (infOk : Bool) (db : Database) (errors : Nat) : IterResult :=
  let tier := loopTier parse db
  if tier = SurvivalTier.Dead then
    { db := kv_set db "agent_state" (AgentState.display .Dead),
      errors := errors, halted := true, turnCreated := false, modelUsed := none }
  else
    let model := effective_model cfg (tier != SurvivalTier.Normal)
    if infOk then
      { db := kv_set { db with turns := db.turns + 1 } "agent_state"
                (AgentState.display .Running),
        errors := 0, halted := false, turnCreated := true, modelUsed := some model }
    else
      let errors1 := errors + 1
      if cfg.max_consecutive_errors ≤ errors1 then
        { db := kv_set (kv_set db "sleep_until" (toString (now + 300)))
                  "agent_state" (AgentState.display .Sleeping),
          errors := 0, halted := false, turnCreated := false, modelUsed := some model }
      else
        { db := db, errors := errors1, halted := false, turnCreated := false,
          modelUsed := some model }

/-! ## The survival monitor (`src/survival/monitor.rs`) -/

/-- `SurvivalState` from `src/survival/monitor.rs`. -/
structure SurvivalState where
  credits_balance : ℚ
  usdc_balance : ℚ
  tier : SurvivalTier

/-- `SurvivalMonitor::check` (`src/survival/monitor.rs`, lines 35–57): the
credits balance (default 1.0) and USDC balance (default 0.0) are read from
the KV store and the tier is determined from their sum. -/
def monitor_check (parse : String → Option ℚ) (db : Database) : SurvivalState :=
  let credits := ((kv_get db "credits_balance").bind fun s => parse s).getD 1
  let usdc := ((kv_get db "usdc_balance").bind fun s => parse s).getD 0
  { credits_balance := credits, usdc_balance := usdc,
    tier := SurvivalTier.from_balance (credits + usdc) }

/-! ## The heartbeat due-test (`src/heartbeat/daemon.rs`) -/

/-- The fire times of the cron expression `*/5 * * * *` (the default
`heartbeat_ping` schedule, `src/heartbeat/daemon.rs` line 153), over
seconds-since-epoch: the schedule fires at second 0 of every wall-clock
minute divisible by 5, i.e. at the multiples of 300 seconds, and the `cron`
crate's `Schedule::after(&t).next()` returns the least fire time strictly
after `t`.  `300 * (t / 300 + 1)` is exactly that least multiple. -/
def cronNextAfterEvery5Min (t : Nat) : Nat := 300 * (t / 300 + 1)

/-- The due-test of `HeartbeatDaemon::tick` (`src/heartbeat/daemon.rs`,
lines 86–95) for one enabled entry on the five-minute schedule: the last
run defaults to one hour before `now` when the entry has never run
(`now - Duration::hours(1)`), and the task executes exactly when the next
fire time is not after `now` (`next_run <= now`). -/
def heartbeatDue (lastRun : Option Nat) (now : Nat) : Bool :=
  let last := lastRun.getD (now - 3600)
  decide (cronNextAfterEvery5Min last ≤ now)

/-! ## Concrete stores and parsers used by the witnesses -/

/-- A KV map from an association list (witness-construction helper). -/
def kvOf (l : List (String × String)) : String → Option String :=
  fun k => (l.find? fun e => e.1 == k).map Prod.snd

/-- A store holding only KV pairs (witness-construction helper). -/
def dbOf (l : List (String × String)) : Database := ⟨kvOf l, [], 0⟩

end Automaton

namespace Automaton

/-! ## C1: survival-tier bands -/

/-- **C1.** The survival tier function is total and deterministic over a
numeric balance with bands closed on the lower bound: `b ≤ 0` yields Dead,
`0 < b < 0.10` yields Critical, `0.10 ≤ b < 0.50` yields LowCompute,
`b ≥ 0.50` yields Normal; and `tier(0) = Dead`, `tier(0.099) = Critical`,
`tier(0.10) = LowCompute`, `tier(0.49) = LowCompute`, `tier(0.50) = Normal`,
`tier(1000) = Normal`.  (Totality and determinism hold because
`from_balance` is a Lean function.) -/
theorem C1_survival_tier_bands (b : ℚ) :
    (b ≤ 0 → SurvivalTier.from_balance b = .Dead) ∧
    (0 < b → b < 1/10 → SurvivalTier.from_balance b = .Critical) ∧
    (1/10 ≤ b → b < 1/2 → SurvivalTier.from_balance b = .LowCompute) ∧
    (1/2 ≤ b → SurvivalTier.from_balance b = .Normal) ∧
    SurvivalTier.from_balance 0 = .Dead ∧
    SurvivalTier.from_balance (99/1000) = .Critical ∧
    SurvivalTier.from_balance (1/10) = .LowCompute ∧
    SurvivalTier.from_balance (49/100) = .LowCompute ∧
    SurvivalTier.from_balance (1/2) = .Normal ∧
    SurvivalTier.from_balance 1000 = .Normal :=
  ⟨fun h => SurvivalTier.from_balance_dead h,
   fun h0 h1 => SurvivalTier.from_balance_critical h0 h1,
   fun h0 h1 => SurvivalTier.from_balance_low h0 h1,
   fun h => SurvivalTier.from_balance_normal h,
   SurvivalTier.from_balance_dead le_rfl,
   SurvivalTier.from_balance_critical (by norm_num) (by norm_num),
   SurvivalTier.from_balance_low (by norm_num) (by norm_num),
   SurvivalTier.from_balance_low (by norm_num) (by norm_num),
   SurvivalTier.from_balance_normal (by norm_num),
   SurvivalTier.from_balance_normal (by norm_num)⟩

/-- **C1, witness.** The band implications applied at the concrete balances
3/4 (Normal) and 1/20 = 0.05 (Critical). -/
theorem C1_survival_tier_bands_witness :
    SurvivalTier.from_balance (3/4) = .Normal ∧
    SurvivalTier.from_balance (1/20) = .Critical :=
  ⟨(C1_survival_tier_bands (3/4)).2.2.2.1 (by norm_num),
   (C1_survival_tier_bands (1/20)).2.1 (by norm_num) (by norm_num)⟩

/-! ## C2: the write-path validator -/

/-- Replacing forward slashes by backslashes and then normalizing gives the
same character sequence as normalizing directly. -/
theorem normalizeSlashes_map_swap (l : List Char) :
    normalizeSlashes (l.map fun c => if c = '/' then '\\' else c) =
      normalizeSlashes l := by
  unfold normalizeSlashes
  rw [List.map_map]
  refine List.map_congr_left fun c _ => ?_
  by_cases h : c = '/' <;> by_cases h2 : c = '\\' <;>
    simp [h, h2, Function.comp]

/-- **C2, counterexample.** The claim says the validator rejects *exactly*
when the path has a parent-directory traversal segment, is absolute, has a
protected basename, or lies outside the allowlist.  The path
`"workspace/a..b.txt"` satisfies none of these spec conditions (its segments
are `workspace` and `a..b.txt`), yet the code rejects it, because the code
tests for the substring `".."` anywhere, not for a traversal segment. -/
theorem C2_write_path_counterexample :
    validate_write_path "workspace/a..b.txt" = false ∧
    spec_rejects_write_path "workspace/a..b.txt" = false := by
  exact ⟨by decide, by decide⟩

/-- **C2, amended.** For every input path, the validator first normalizes
back-slashes to forward slashes (so acceptance/rejection is identical for
either separator), then rejects exactly when the normalized path contains
the two-character substring `".."` *anywhere* (a conservative
over-approximation of parent-directory traversal segments), or is absolute,
or its final segment equals one of the six protected filenames regardless
of containing directory, or does not begin with one of the allowlisted
directories `workspace/`, `skills/`, `notes/`; it accepts
`"workspace/a.txt"`, `"skills/x/SKILL.md"`, `"notes/n.md"` and rejects
`"workspace/../wallet.json"`, `"/etc/passwd"`, `"workspace/wallet.json"`,
`"src/main.rs"`. -/
theorem C2_write_path_amended (p : String) :
    (validate_write_path p = false ↔ code_rejects_write_path p = true) ∧
    validate_write_path
        (String.mk (p.data.map fun c => if c = '/' then '\\' else c)) =
      validate_write_path p ∧
    validate_write_path "workspace/a.txt" = true ∧
    validate_write_path "skills/x/SKILL.md" = true ∧
    validate_write_path "notes/n.md" = true ∧
    validate_write_path "workspace/../wallet.json" = false ∧
    validate_write_path "/etc/passwd" = false ∧
    validate_write_path "workspace/wallet.json" = false ∧
    validate_write_path "src/main.rs" = false := by
  refine ⟨?_, ?_, by decide, by decide, by decide, by decide, by decide,
    by decide, by decide⟩
  · simp only [validate_write_path, code_rejects_write_path]
    cases h1 : containsSeq "..".data (normalizeSlashes p.data) <;>
      cases h2 : ((normalizeSlashes p.data).head? == some '/') <;>
        cases h3 : PROTECTED_FILES.any
            (fun q => q.data == afterLastSlash (normalizeSlashes p.data)) <;>
          cases h4 : ALLOWED_PREFIXES.any
              (fun q => q.data.isPrefixOf (normalizeSlashes p.data)) <;>
            simp [h1, h2, h3, h4]
  · simp only [validate_write_path]
    rw [normalizeSlashes_map_swap]

/-- **C2, witness.** The amended equivalence applied at the concrete path
`"workspace/sub/wallet.json"`: rejected, and the code-side rejection
condition holds (protected basename in a nested directory). -/
theorem C2_write_path_amended_witness :
    validate_write_path "workspace/sub/wallet.json" = false ∧
    code_rejects_write_path "workspace/sub/wallet.json" = true :=
  ⟨(C2_write_path_amended "workspace/sub/wallet.json").1.mpr (by decide),
   by decide⟩

/-! ## Turn-Loop helper lemmas -/

/-- When the tier is not Dead, the iteration never halts the loop (the only
`break` in `run_agent_loop` is in the Dead branch). -/
theorem loopIter_not_dead_halted (cfg : LoopConfig) (parse : String → Option ℚ)
    (now : Nat) (infOk : Bool) (db : Database) (e : Nat)
    (h : loopTier parse db ≠ .Dead) :
    (loopIter cfg parse now infOk db e).halted = false := by
  unfold loopIter
  rw [if_neg h]
  cases infOk
  · dsimp only
    split
    · rfl
    · split <;> rfl
  · rfl

/-- When the tier is not Dead, the iteration selects
`effective_model cfg (tier != Normal)` (line 98 of `loop_.rs`). -/
theorem loopIter_model (cfg : LoopConfig) (parse : String → Option ℚ)
    (now : Nat) (infOk : Bool) (db : Database) (e : Nat)
    (h : loopTier parse db ≠ .Dead) :
    (loopIter cfg parse now infOk db e).modelUsed =
      some (effective_model cfg (loopTier parse db != SurvivalTier.Normal)) := by
  unfold loopIter
  rw [if_neg h]
  cases infOk
  · dsimp only
    split
    · rfl
    · split <;> rfl
  · rfl

/-! ## C3: which balance feeds the Turn Loop's tier -/

/-- A parser instance for the C3 counterexample. -/
def pC3 : String → Option ℚ :=
  fun s => if s = "0" then some 0 else if s = "5" then some 5 else none

/-- Store with zero credits and five dollars of USDC. -/
def dbC3 : Database := dbOf [("credits_balance", "0"), ("usdc_balance", "5")]

/-- The default model/error configuration (`src/config/schema.rs`,
`Default for AutomatonConfig`). -/
def cfgA : LoopConfig :=
  { inference_model := "gpt-4o", low_compute_model := "gpt-4o-mini",
    max_consecutive_errors := 5 }

/-- **C3, counterexample.** With `credits_balance = "0"` and
`usdc_balance = "5"` the combined balance is 5 (tier Normal, as
`SurvivalMonitor::check` computes), yet the Turn Loop's tier — the one that
gates halting — is Dead and the iteration halts: the loop reads only
`credits_balance`. -/
theorem C3_combined_balance_counterexample :
    loopTier pC3 dbC3 = .Dead ∧
    (monitor_check pC3 dbC3).tier = .Normal ∧
    (loopIter cfgA pC3 0 true dbC3 0).halted = true := by
  have hdead : loopTier pC3 dbC3 = .Dead := by
    show SurvivalTier.from_balance ((pC3 "0").getD 1) = .Dead
    show SurvivalTier.from_balance 0 = .Dead
    exact SurvivalTier.from_balance_dead le_rfl
  refine ⟨hdead, ?_, ?_⟩
  · show SurvivalTier.from_balance ((0 : ℚ) + 5) = .Normal
    exact SurvivalTier.from_balance_normal (by norm_num)
  · unfold loopIter
    rw [if_pos hdead]

/-- **C3, amended.** In every Turn Loop iteration the survival tier that
gates halting, model choice and prompt guidance is computed from the
primary (credits) balance alone — writing any value under `usdc_balance`
never changes it — with an absent key giving Normal and an unparseable
value the fallback balance 1.0; the combined credits + USDC tier is
computed only by `SurvivalMonitor::check`, which the Turn Loop does not
consult. -/
theorem C3_loop_tier_credits_only (parse : String → Option ℚ) (db : Database)
    (v : String) :
    loopTier parse (kv_set db "usdc_balance" v) = loopTier parse db ∧
    (kv_get db "credits_balance" = none → loopTier parse db = .Normal) ∧
    (∀ s, kv_get db "credits_balance" = some s →
      loopTier parse db = SurvivalTier.from_balance ((parse s).getD 1)) := by
  refine ⟨?_, ?_, ?_⟩
  · simp only [loopTier, kv_get, kv_set]
    rw [if_neg (by decide : ¬("credits_balance" = "usdc_balance"))]
  · intro h
    unfold loopTier
    rw [h]
  · intro s h
    unfold loopTier
    rw [h]

/-- **C3, amended, witness.** The amended statement applied at a store whose
credits key holds `"2"` (parsed as 2): USDC writes do not change the tier
input, and the tier is the one computed from the credits value. -/
theorem C3_loop_tier_credits_only_witness :
    loopTier (fun _ => some 2) (kv_set (dbOf [("credits_balance", "2")]) "usdc_balance" "9") =
      loopTier (fun _ => some 2) (dbOf [("credits_balance", "2")]) ∧
    loopTier (fun _ => some 2) (dbOf [("credits_balance", "2")]) =
      SurvivalTier.from_balance ((some (2 : ℚ)).getD 1) :=
  ⟨(C3_loop_tier_credits_only (fun _ => some 2) (dbOf [("credits_balance", "2")]) "9").1,
   (C3_loop_tier_credits_only (fun _ => some 2) (dbOf [("credits_balance", "2")]) "9").2.2
     "2" rfl⟩

/-! ## C4: only Dead halts; cheaper model off-Normal -/

/-- **C4.** The Turn Loop halts of its own accord exactly when the computed
tier is Dead, persisting `agent_state = "dead"` first; any non-Dead tier
never halts the iteration, and whenever the tier is not Normal the cheaper
(low-compute) model variant is selected, the configured inference model
otherwise. -/
theorem C4_dead_halt_only (cfg : LoopConfig) (parse : String → Option ℚ)
    (now : Nat) (infOk : Bool) (db : Database) (e : Nat) :
    ((loopIter cfg parse now infOk db e).halted = true ↔
      loopTier parse db = .Dead) ∧
    (loopTier parse db = .Dead →
      (loopIter cfg parse now infOk db e).db.kv "agent_state" = some "dead") ∧
    (loopTier parse db ≠ .Dead → loopTier parse db ≠ .Normal →
      (loopIter cfg parse now infOk db e).modelUsed = some cfg.low_compute_model) ∧
    (loopTier parse db = .Normal →
      (loopIter cfg parse now infOk db e).modelUsed = some cfg.inference_model) := by
  by_cases h : loopTier parse db = .Dead
  · refine ⟨?_, ?_, fun hne _ => absurd h hne, fun hn => ?_⟩
    · unfold loopIter
      rw [if_pos h]
      simp [h]
    · intro _
      unfold loopIter
      rw [if_pos h]
      simp [kv_set, AgentState.display]
    · rw [hn] at h
      exact absurd h (by decide)
  · have hm := loopIter_model cfg parse now infOk db e h
    refine ⟨?_, fun hd => absurd hd h, fun _ hn => ?_, fun hn => ?_⟩
    · rw [loopIter_not_dead_halted cfg parse now infOk db e h]
      simp [h]
    · rw [hm]
      have : (loopTier parse db != SurvivalTier.Normal) = true := bne_iff_ne.mpr hn
      rw [this]
      rfl
    · rw [hm]
      have : (loopTier parse db != SurvivalTier.Normal) = false := by
        rw [hn]
        rfl
      rw [this]
      rfl

/-- A parser instance for the Critical-balance scenario (0.05 → 1/20). -/
def pC4 : String → Option ℚ := fun _ => some (1/20)

/-- Store with a critically low credits balance of $0.05. -/
def dbC4 : Database := dbOf [("credits_balance", "0.05")]

/-- **C4, witness.** The scenario `balance = 0.05`: tier Critical, the
iteration does not halt, and the cheaper model `gpt-4o-mini` is selected. -/
theorem C4_dead_halt_only_witness :
    (loopIter cfgA pC4 0 true dbC4 0).halted = false ∧
    (loopIter cfgA pC4 0 true dbC4 0).modelUsed = some "gpt-4o-mini" := by
  have htier : loopTier pC4 dbC4 = .Critical := by
    show SurvivalTier.from_balance ((pC4 "0.05").getD 1) = .Critical
    show SurvivalTier.from_balance (1/20 : ℚ) = .Critical
    exact SurvivalTier.from_balance_critical (by norm_num) (by norm_num)
  have h := C4_dead_halt_only cfgA pC4 0 true dbC4 0
  constructor
  · cases hb : (loopIter cfgA pC4 0 true dbC4 0).halted
    · rfl
    · exact absurd (h.1.mp hb) (by rw [htier]; decide)
  · exact h.2.2.1 (by rw [htier]; decide) (by rw [htier]; decide)

/-! ## C5: consecutive inference errors -/

/-- **C5.** On an inference failure no Turn record is created and the
consecutive-error counter is incremented; exactly when the incremented
counter reaches the configured threshold, the iteration persists
`agent_state = "sleeping"` together with `sleep_until = now + 300` seconds
(≈ five minutes ahead) and resets the counter to zero — below the
threshold the store is untouched; the counter always stays below the
threshold afterwards, and an inference success resets it to zero. -/
theorem C5_error_threshold (cfg : LoopConfig) (parse : String → Option ℚ)
    (now : Nat) (db : Database) (e : Nat)
    (hpos : 0 < cfg.max_consecutive_errors)
    (hinv : e < cfg.max_consecutive_errors)
    (htier : loopTier parse db ≠ .Dead) :
    (loopIter cfg parse now false db e).turnCreated = false ∧
    (e + 1 = cfg.max_consecutive_errors →
      (loopIter cfg parse now false db e).db.kv "agent_state" = some "sleeping" ∧
      (loopIter cfg parse now false db e).db.kv "sleep_until" =
        some (toString (now + 300)) ∧
      (loopIter cfg parse now false db e).errors = 0) ∧
    (e + 1 < cfg.max_consecutive_errors →
      (loopIter cfg parse now false db e).db = db ∧
      (loopIter cfg parse now false db e).errors = e + 1) ∧
    (loopIter cfg parse now false db e).errors < cfg.max_consecutive_errors ∧
    (loopIter cfg parse now true db e).errors = 0 := by
  unfold loopIter
  rw [if_neg htier, if_neg htier]
  by_cases hth : cfg.max_consecutive_errors ≤ e + 1
  · have heq : e + 1 = cfg.max_consecutive_errors := le_antisymm hinv hth
    refine ⟨?_, fun _ => ⟨?_, ?_, ?_⟩, fun hlt => absurd heq (by omega), ?_, rfl⟩ <;>
      simp [hth, kv_set, AgentState.display, hpos]
  · refine ⟨?_, fun heq => absurd heq (by omega), fun _ => ⟨?_, ?_⟩, ?_, rfl⟩ <;>
      simp [hth]
    omega

/-- **C5, witness.** With the default threshold 5 and four prior consecutive
errors, a fifth failure transitions once to Sleeping with a wake time 300
seconds ahead and resets the counter; a success also resets it. -/
theorem C5_error_threshold_witness :
    (loopIter cfgA (fun _ => none) 1000 false (dbOf []) 4).db.kv "agent_state" =
      some "sleeping" ∧
    (loopIter cfgA (fun _ => none) 1000 false (dbOf []) 4).db.kv "sleep_until" =
      some (toString (1000 + 300)) ∧
    (loopIter cfgA (fun _ => none) 1000 false (dbOf []) 4).errors = 0 ∧
    (loopIter cfgA (fun _ => none) 1000 true (dbOf []) 4).errors = 0 := by
  have h := C5_error_threshold cfgA (fun _ => none) 1000 (dbOf []) 4
    (by decide) (by decide) (by show SurvivalTier.Normal ≠ .Dead; decide)
  have h2 := h.2.1 rfl
  exact ⟨h2.1, h2.2.1, h2.2.2, h.2.2.2.2⟩

/-! ## C10: unknown or corrupt balance never kills the loop -/

/-- **C10.** If `credits_balance` is absent the Turn Loop's tier is Normal;
if present but unparseable the balance falls back to 1.0, again giving
Normal — in both cases the iteration does not take the Dead-halt path. -/
theorem C10_unknown_balance_normal (cfg : LoopConfig) (parse : String → Option ℚ)
    (now : Nat) (infOk : Bool) (db : Database) (e : Nat) :
    (kv_get db "credits_balance" = none →
      loopTier parse db = .Normal ∧
      (loopIter cfg parse now infOk db e).halted = false) ∧
    (∀ s, kv_get db "credits_balance" = some s → parse s = none →
      loopTier parse db = .Normal ∧
      (loopIter cfg parse now infOk db e).halted = false) := by
  constructor
  · intro h
    have ht : loopTier parse db = .Normal := by
      unfold loopTier
      rw [h]
    exact ⟨ht, loopIter_not_dead_halted cfg parse now infOk db e
      (by rw [ht]; decide)⟩
  · intro s hs hp
    have ht : loopTier parse db = .Normal := by
      unfold loopTier
      rw [hs]
      show SurvivalTier.from_balance ((parse s).getD 1) = .Normal
      rw [hp]
      exact SurvivalTier.from_balance_normal (by norm_num)
    exact ⟨ht, loopIter_not_dead_halted cfg parse now infOk db e
      (by rw [ht]; decide)⟩

/-- **C10, witness.** An empty store (no `credits_balance` key) and a store
whose `credits_balance` value no parser accepts: both give tier Normal and
a non-halting iteration. -/
theorem C10_unknown_balance_normal_witness :
    loopTier (fun _ => none) (dbOf []) = .Normal ∧
    (loopIter cfgA (fun _ => none) 0 true (dbOf []) 0).halted = false ∧
    loopTier (fun _ => none) (dbOf [("credits_balance", "not-a-number")]) = .Normal ∧
    (loopIter cfgA (fun _ => none) 0 true
      (dbOf [("credits_balance", "not-a-number")]) 0).halted = false := by
  have h1 := (C10_unknown_balance_normal cfgA (fun _ => none) 0 true (dbOf []) 0).1 rfl
  have h2 := (C10_unknown_balance_normal cfgA (fun _ => none) 0 true
    (dbOf [("credits_balance", "not-a-number")]) 0).2 "not-a-number" rfl rfl
  exact ⟨h1.1, h1.2, h2.1, h2.2⟩

/-! ## C6: diff truncation content -/

/-- **C6, counterexample.** The claim's "the marker appears in the output if
and only if truncation occurred" fails: the marker string itself is 43 bytes,
well under the 64 KiB cap, so it is returned unchanged — yet the output
contains the marker although no truncation occurred. -/
theorem C6_truncate_diff_counterexample :
    truncate_diff truncationMarker = some truncationMarker ∧
    containsSeq truncationMarker truncationMarker = true ∧
    ¬ MAX_DIFF_BYTES < truncationMarker.length :=
  ⟨by decide, by decide, by decide⟩

/-- **C6, amended.** A diff of at most 65536 bytes is returned unchanged; a
longer diff whose 65536-byte cut falls on a character boundary (otherwise
the byte-slice panics, see the totality analysis) yields exactly its first
65536 bytes followed by the fixed truncation marker — in particular the
marker is then a suffix of the output, whose length is 65536 plus the
marker's; so the marker is *appended* exactly when truncation occurs,
though an untruncated diff that already contains the marker text keeps it. -/
theorem C6_truncate_diff_amended (d : List Nat) :
    (d.length ≤ MAX_DIFF_BYTES → truncate_diff d = some d) ∧
    (MAX_DIFF_BYTES < d.length → isCharBoundary d MAX_DIFF_BYTES = true →
      truncate_diff d = some (d.take MAX_DIFF_BYTES ++ truncationMarker) ∧
      (d.take MAX_DIFF_BYTES ++ truncationMarker).length =
        MAX_DIFF_BYTES + truncationMarker.length ∧
      truncationMarker <:+ d.take MAX_DIFF_BYTES ++ truncationMarker) := by
  constructor
  · intro h
    unfold truncate_diff
    rw [if_neg (Nat.not_lt.mpr h)]
  · intro h hb
    unfold truncate_diff
    rw [if_pos h, if_pos hb]
    refine ⟨rfl, ?_, ⟨d.take MAX_DIFF_BYTES, rfl⟩⟩
    rw [List.length_append, List.length_take, Nat.min_eq_left (le_of_lt h)]

/-- **C6, amended, witness.** A one-byte diff is returned unchanged; a
65537-byte all-ASCII diff is truncated to its first 65536 bytes plus the
marker. -/
theorem C6_truncate_diff_amended_witness :
    truncate_diff [97] = some [97] ∧
    truncate_diff (List.replicate 65537 97) =
      some ((List.replicate 65537 97).take MAX_DIFF_BYTES ++ truncationMarker) :=
  ⟨(C6_truncate_diff_amended [97]).1 (by decide),
   ((C6_truncate_diff_amended (List.replicate 65537 97)).2
      (by rw [List.length_replicate]; decide)
      (by unfold isCharBoundary
          rw [List.getElem?_replicate, List.length_replicate]
          rfl)).1⟩

/-! ## C9: the truncation byte-slice can panic -/

/-- The problematic diff: 65535 ASCII bytes `a` followed by the two-byte
UTF-8 character U+00E9 (`é`, bytes `0xC3 0xA9`) — a valid UTF-8 string of
65537 bytes whose byte 65536 is a continuation byte, so the 64 KiB cut does
not fall on a character boundary and Rust's `&diff[..MAX_DIFF_BYTES]`
panics. -/
def straddlingDiff : List Nat := List.replicate 65535 97 ++ [195, 169]

/-- **C9.** The claim (truncation is total, the 64 KiB cut always falls on a
character boundary) is what the code should satisfy but does not: on
`straddlingDiff` the cut lands inside a multi-byte character and the slice
panics (`none` in the model). -/
theorem C9_truncate_diff_panics :
    MAX_DIFF_BYTES < straddlingDiff.length ∧
    isCharBoundary straddlingDiff MAX_DIFF_BYTES = false ∧
    truncate_diff straddlingDiff = none := by
  have hlen : straddlingDiff.length = 65537 := by
    unfold straddlingDiff
    rw [List.length_append, List.length_replicate]
    rfl
  have hget : straddlingDiff[MAX_DIFF_BYTES]? = some 169 := by
    unfold straddlingDiff
    rw [List.getElem?_append_right (by rw [List.length_replicate]; decide),
        List.length_replicate]
    rfl
  have hlt : MAX_DIFF_BYTES < straddlingDiff.length := by
    rw [hlen]
    decide
  have hb : isCharBoundary straddlingDiff MAX_DIFF_BYTES = false := by
    unfold isCharBoundary
    rw [hget, hlen]
    rfl
  refine ⟨hlt, hb, ?_⟩
  unfold truncate_diff
  rw [if_pos hlt, if_neg (by simp [hb])]

/-! ## C7: one-shot signals in the turn context -/

/-- Marking messages read does not touch the KV table. -/
theorem dbAfterMsgs_kv (db : Database) : (dbAfterMsgs db).kv = db.kv := by
  unfold dbAfterMsgs
  split <;> rfl

/-- After stage 2 the `wake_reason` key is gone and every other key is
unchanged. -/
theorem dbAfterWake_kv (db : Database) (k : String) :
    (dbAfterWake db).kv k = if k = "wake_reason" then none else db.kv k := by
  unfold dbAfterWake
  split
  next r heq =>
    show (kv_delete (dbAfterMsgs db) "wake_reason").kv k = _
    unfold kv_delete
    dsimp only
    rw [dbAfterMsgs_kv]
  next heq =>
    have h : db.kv "wake_reason" = none := by
      unfold kv_get at heq
      rw [dbAfterMsgs_kv] at heq
      exact heq
    rw [dbAfterMsgs_kv]
    by_cases hk : k = "wake_reason"
    · rw [if_pos hk, hk, h]
    · rw [if_neg hk]

/-- After stage 3 the `survival_alert` key is gone and every other key is as
after stage 2. -/
theorem dbAfterAlert_kv (db : Database) (k : String) :
    (dbAfterAlert db).kv k =
      if k = "survival_alert" then none else (dbAfterWake db).kv k := by
  unfold dbAfterAlert
  split
  next a heq =>
    show (kv_delete (dbAfterWake db) "survival_alert").kv k = _
    unfold kv_delete
    dsimp only
  next heq =>
    have h : (dbAfterWake db).kv "survival_alert" = none := heq
    by_cases hk : k = "survival_alert"
    · rw [if_pos hk, hk, h]
    · rw [if_neg hk]

/-- The KV table returned by `build_turn_context`: both one-shot keys are
deleted, everything else is untouched. -/
theorem build_turn_context_kv (db : Database) (k : String) :
    (build_turn_context db).2.kv k =
      if k = "survival_alert" then none
      else if k = "wake_reason" then none else db.kv k := by
  show (dbAfterAlert db).kv k = _
  rw [dbAfterAlert_kv, dbAfterWake_kv]

/-- Stages 2 and 3 do not touch the inbox. -/
theorem dbAfterAlert_inbox (db : Database) :
    (dbAfterAlert db).inbox = (dbAfterMsgs db).inbox := by
  unfold dbAfterAlert
  split <;>
    · show _ = (dbAfterMsgs db).inbox
      unfold dbAfterWake
      split <;> rfl

/-- After stage 1 every inbox row is marked read. -/
theorem dbAfterMsgs_all_read (db : Database) :
    ∀ m ∈ (dbAfterMsgs db).inbox, m.read = true := by
  intro m hm
  unfold dbAfterMsgs at hm
  split at hm
  next hemp =>
    have hnil : unread_messages db = [] := List.isEmpty_iff.mp hemp
    unfold unread_messages at hnil
    have := (List.filter_eq_nil_iff.mp hnil) m hm
    simpa using this
  next hemp =>
    dsimp only at hm
    unfold mark_ids_read at hm
    rw [List.mem_map] at hm
    obtain ⟨x, hx, rfl⟩ := hm
    by_cases hr : x.read
    · split <;> simp [hr]
    · have hmem : x ∈ unread_messages db := by
        unfold unread_messages
        rw [List.mem_filter]
        exact ⟨hx, by simp [hr]⟩
      rw [if_pos (List.any_eq_true.mpr ⟨x, hmem, beq_self_eq_true x.id⟩)]

/-- The store returned by `build_turn_context` has no unread messages. -/
theorem build_turn_context_unread (db : Database) :
    unread_messages (build_turn_context db).2 = [] := by
  show unread_messages (dbAfterAlert db) = []
  unfold unread_messages
  rw [dbAfterAlert_inbox]
  refine List.filter_eq_nil_iff.mpr fun m hm => ?_
  simp [dbAfterMsgs_all_read db m hm]

/-- An immediately following `build_turn_context` yields the empty context
(in particular it includes neither one-shot signal) and leaves the store
unchanged. -/
theorem build_turn_context_twice (db : Database) :
    build_turn_context (build_turn_context db).2 = ("", (build_turn_context db).2) := by
  have hu := build_turn_context_unread db
  have hw : (build_turn_context db).2.kv "wake_reason" = none := by
    rw [build_turn_context_kv]
    rfl
  have ha : (build_turn_context db).2.kv "survival_alert" = none := by
    rw [build_turn_context_kv]
    rfl
  have hdm : dbAfterMsgs (build_turn_context db).2 = (build_turn_context db).2 := by
    unfold dbAfterMsgs
    rw [hu]
    rfl
  have hcm : ctxMsgs (build_turn_context db).2 = "" := by
    unfold ctxMsgs
    rw [hu]
    rfl
  have hdw : dbAfterWake (build_turn_context db).2 = (build_turn_context db).2 := by
    unfold dbAfterWake
    rw [hdm]
    unfold kv_get
    rw [hw]
  have hcw : ctxAfterWake (build_turn_context db).2 = "" := by
    unfold ctxAfterWake
    rw [hdm, hcm]
    unfold kv_get
    rw [hw]
  have hda : dbAfterAlert (build_turn_context db).2 = (build_turn_context db).2 := by
    unfold dbAfterAlert
    rw [hdw]
    unfold kv_get
    rw [ha]
  have hca : ctxAfterAlert (build_turn_context db).2 = "" := by
    unfold ctxAfterAlert
    rw [hdw, hcw]
    unfold kv_get
    rw [ha]
  show (ctxAfterAlert _, dbAfterAlert _) = _
  rw [hca, hda]

/-- **C7.** Building the turn context includes each pending one-shot signal
(`wake_reason`, `survival_alert`) in the returned context and deletes its key
in the same call; no other KV key is modified; and an immediately following
build returns the empty context — so neither signal can be delivered
twice. -/
theorem C7_oneshot_signals (db : Database) :
    (build_turn_context db).2.kv "wake_reason" = none ∧
    (build_turn_context db).2.kv "survival_alert" = none ∧
    (∀ k, k ≠ "wake_reason" → k ≠ "survival_alert" →
      (build_turn_context db).2.kv k = db.kv k) ∧
    (∀ r, db.kv "wake_reason" = some r → ∃ pre post,
      (build_turn_context db).1 =
        pre ++ ("## Wake Reason\n\n" ++ r ++ "\n\n") ++ post) ∧
    (∀ a, db.kv "survival_alert" = some a → ∃ pre,
      (build_turn_context db).1 =
        pre ++ ("## Survival Alert\n\n" ++ a ++ "\n\n")) ∧
    (build_turn_context (build_turn_context db).2).1 = "" ∧
    (build_turn_context (build_turn_context db).2).2 = (build_turn_context db).2 := by
  refine ⟨?_, ?_, ?_, ?_, ?_, ?_, ?_⟩
  · rw [build_turn_context_kv]
    rfl
  · rw [build_turn_context_kv]
    rfl
  · intro k hkw hka
    rw [build_turn_context_kv, if_neg hka, if_neg hkw]
  · intro r hr
    have hkw : kv_get (dbAfterMsgs db) "wake_reason" = some r := by
      unfold kv_get
      rw [dbAfterMsgs_kv, hr]
    have hwctx : ctxAfterWake db =
        ctxMsgs db ++ ("## Wake Reason\n\n" ++ r ++ "\n\n") := by
      unfold ctxAfterWake
      rw [hkw]
    have hfr : kv_get (dbAfterWake db) "survival_alert" = db.kv "survival_alert" := by
      unfold kv_get
      rw [dbAfterWake_kv, if_neg (by decide : ¬("survival_alert" = "wake_reason"))]
    show ∃ pre post, ctxAfterAlert db = _
    unfold ctxAfterAlert
    rw [hfr]
    cases h2 : db.kv "survival_alert"
    · exact ⟨ctxMsgs db, "", by rw [hwctx, String.append_empty]⟩
    · exact ⟨ctxMsgs db, _, by rw [hwctx]⟩
  · intro a ha
    have hfr : kv_get (dbAfterWake db) "survival_alert" = some a := by
      unfold kv_get
      rw [dbAfterWake_kv, if_neg (by decide : ¬("survival_alert" = "wake_reason")), ha]
    show ∃ pre, ctxAfterAlert db = _
    unfold ctxAfterAlert
    rw [hfr]
    exact ⟨ctxAfterWake db, rfl⟩
  · rw [build_turn_context_twice]
  · rw [build_turn_context_twice]

/-- A store with both one-shot signals pending (witness input). -/
def dbC7 : Database := dbOf [("wake_reason", "w"), ("survival_alert", "sa")]

/-- **C7, witness.** With both signals pending: the build deletes both keys,
leaves an unrelated key untouched, includes the wake-reason section, and the
immediately following build returns the empty context. -/
theorem C7_oneshot_signals_witness :
    (build_turn_context dbC7).2.kv "wake_reason" = none ∧
    (build_turn_context dbC7).2.kv "credits_balance" = dbC7.kv "credits_balance" ∧
    (∃ pre post, (build_turn_context dbC7).1 =
      pre ++ ("## Wake Reason\n\n" ++ "w" ++ "\n\n") ++ post) ∧
    (build_turn_context (build_turn_context dbC7).2).1 = "" := by
  have h := C7_oneshot_signals dbC7
  exact ⟨h.1, h.2.2.1 "credits_balance" (by decide) (by decide),
    h.2.2.2.1 "w" rfl, h.2.2.2.2.2.1⟩

/-! ## C8: the heartbeat due-test -/

/-- **C8, counterexample.** The claim says an "every 5 minutes" entry last
run at T is due exactly at ticks with now ≥ T + 5 min, independent of
alignment.  False: cron `*/5 * * * *` fires at wall-clock 5-minute
boundaries, so an entry last run at T = 180 s (00:03:00) is already due at
now = 300 s (00:05:00) although now < T + 300 s. -/
theorem C8_heartbeat_counterexample :
    heartbeatDue (some 180) 300 = true ∧ ¬(180 + 300 ≤ 300) :=
  ⟨by decide, by decide⟩

/-- **C8, amended.** For a heartbeat entry on the `*/5 * * * *` schedule
with last recorded run T (defaulting to one hour before now if never run),
a tick at time now executes the entry if and only if the next cron fire
time — the least multiple of 5 minutes *strictly after T*, which is at most
T + 5 min and equals T + 5 min exactly when T is boundary-aligned — is not
after now.  In particular the entry is always due once now ≥ T + 5 min, but
it can also fire earlier when T is not aligned to the schedule. -/
theorem C8_heartbeat_due_amended (T now : Nat) :
    (heartbeatDue (some T) now = true ↔ cronNextAfterEvery5Min T ≤ now) ∧
    T < cronNextAfterEvery5Min T ∧
    cronNextAfterEvery5Min T ≤ T + 300 ∧
    cronNextAfterEvery5Min T % 300 = 0 ∧
    (∀ m, T < m → m % 300 = 0 → cronNextAfterEvery5Min T ≤ m) ∧
    (T + 300 ≤ now → heartbeatDue (some T) now = true) ∧
    (T % 300 = 0 → (heartbeatDue (some T) now = true ↔ T + 300 ≤ now)) ∧
    heartbeatDue none now = heartbeatDue (some (now - 3600)) now := by
  refine ⟨?_, ?_, ?_, ?_, ?_, ?_, ?_, rfl⟩
  · simp [heartbeatDue]
  · unfold cronNextAfterEvery5Min
    omega
  · unfold cronNextAfterEvery5Min
    omega
  · unfold cronNextAfterEvery5Min
    omega
  · intro m h1 h2
    unfold cronNextAfterEvery5Min
    omega
  · intro h
    simp only [heartbeatDue, Option.getD_some, decide_eq_true_eq]
    unfold cronNextAfterEvery5Min
    omega
  · intro h0
    simp only [heartbeatDue, Option.getD_some, decide_eq_true_eq]
    unfold cronNextAfterEvery5Min
    omega

/-- **C8, witness.** A boundary-aligned entry last run at 600 s is due at
900 s, and 900 is a fire time not before the next one after 600. -/
theorem C8_heartbeat_due_amended_witness :
    heartbeatDue (some 600) 900 = true ∧ cronNextAfterEvery5Min 600 ≤ 900 :=
  ⟨(C8_heartbeat_due_amended 600 900).2.2.2.2.2.1 (by decide),
   (C8_heartbeat_due_amended 600 900).2.2.2.2.1 900 (by decide) (by decide)⟩

end Automaton
